import Mathlib

/-!
# OPTENALIZE — verification of the data-quality engine

Shallow embedding of the data-quality assessment and remediation engine of
the OPTENALIZE repository (`improved_data_health_center.py`,
`optenalize.py`, `dataset_precheck_workflow.py`).

A pandas DataFrame is modelled as a list of column descriptors (name and
storage dtype) together with a row-major list of cells.  Machine floats are
modelled as exact rationals; pandas/NaN missingness is the `Cell.null`
constructor.  Python `round(x, 1)` is modelled as exact half-to-even
rounding at one decimal.  The only nondeterministic input of the engine,
`datetime.now()` inside `log_action`, is modelled as an explicit stream of
timestamp strings threaded through the execution state.
-/

namespace Optenalize

/-- A single cell of a loaded DataFrame.  `null` is pandas missingness
(NaN/None/NaT); `num` covers the values held by int64/float64 columns and
Python int/float objects in object columns; `dateV` is a pandas Timestamp
(year, month, day). -/
inductive Cell where
  | null : Cell
  | num : ℚ → Cell
  | strV : String → Cell
  | boolV : Bool → Cell
  | dateV : Nat → Nat → Nat → Cell
deriving DecidableEq, Repr

/-- Storage dtype of a pandas column: `numeric` covers int64/float64,
`datetime` is datetime64[ns], `object` holds arbitrary Python objects. -/
inductive Dtype where
  | numeric : Dtype
  | datetime : Dtype
  | object : Dtype
deriving DecidableEq, Repr

/-- Python type tag of a cell as seen by `Series.apply(type)`.  Inside a
numeric (resp. datetime) column every non-null element is a numpy scalar
(resp. Timestamp); in an object column each element keeps its own Python
type, a NaN being a Python float. -/
inductive PyType where
  | npNum : PyType
  | timestamp : PyType
  | natT : PyType
  | pyInt : PyType
  | pyFloat : PyType
  | pyStr : PyType
  | pyBool : PyType
deriving DecidableEq, Repr

/-- Name and dtype of one column. -/
structure ColMeta where
  name : String
  dtype : Dtype
deriving DecidableEq, Repr

/-- An in-memory table: column descriptors plus row-major cells. -/
structure Dataset where
  colmeta : List ColMeta
  rows : List (List Cell)
deriving DecidableEq, Repr

namespace Dataset

/-- Number of rows (`len(dataset)`). -/
def nrows (d : Dataset) : Nat := d.rows.length

/-- Number of columns (`len(dataset.columns)`). -/
def ncols (d : Dataset) : Nat := d.colmeta.length

/-- Column names in order (`dataset.columns`). -/
def names (d : Dataset) : List String := d.colmeta.map ColMeta.name

/-- The cells of the j-th column. -/
def colCells (d : Dataset) (j : Nat) : List Cell :=
  d.rows.map (fun r => r.getD j Cell.null)

/-- Dtype of the j-th column. -/
def colDtype (d : Dataset) (j : Nat) : Dtype :=
  (d.colmeta.getD j ⟨"", Dtype.object⟩).dtype

/-- Index of the column with a given name, if present
(column labels are unique in a well-formed dataset). -/
def colIndex (d : Dataset) (c : String) : Option Nat :=
  (d.names).indexOf? c

/-- Well-formedness of a loaded DataFrame: every row has one cell per
column, column labels are distinct, and each column's cells conform to its
declared dtype. -/
def wfB (d : Dataset) : Bool :=
  d.rows.all (fun r => r.length = d.ncols) &&
  d.names.Nodup &&
  (List.range d.ncols).all (fun j =>
    match d.colDtype j with
    | Dtype.numeric => (d.colCells j).all (fun c =>
        match c with | Cell.null => true | Cell.num _ => true | _ => false)
    | Dtype.datetime => (d.colCells j).all (fun c =>
        match c with | Cell.null => true | Cell.dateV _ _ _ => true | _ => false)
    | Dtype.object => true)

end Dataset

/-- Is a cell missing (`pd.isnull`)? -/
def Cell.isNull : Cell → Bool
  | Cell.null => true
  | _ => false

/-- Python type of a cell in a column of the given dtype, as produced by
`Series.apply(type)`.  In an object column a Python int is distinguished
from a float by integrality of the stored rational. -/
def cellPyType (dt : Dtype) (c : Cell) : PyType :=
  match dt with
  | Dtype.numeric => PyType.npNum
  | Dtype.datetime => match c with
    | Cell.null => PyType.natT
    | _ => PyType.timestamp
  | Dtype.object => match c with
    | Cell.null => PyType.pyFloat
    | Cell.num q => if q.den = 1 then PyType.pyInt else PyType.pyFloat
    | Cell.strV _ => PyType.pyStr
    | Cell.boolV _ => PyType.pyBool
    | Cell.dateV _ _ _ => PyType.timestamp

/-- Number of nulls in a list of cells. -/
def nullCount (cells : List Cell) : Nat := cells.countP (fun c => c.isNull)

/-- `len(dataset[col].apply(type).unique())` for the j-th column. -/
def uniqueTypeCount (d : Dataset) (j : Nat) : Nat :=
  (((d.colCells j).map (cellPyType (d.colDtype j))).dedup).length

/-- `dataset.duplicated().sum()`: the number of rows equal to some earlier
row (pandas marks every occurrence after the first). -/
def dupCountGo (seen : List (List Cell)) : List (List Cell) → Nat
  | [] => 0
  | r :: rs => (if r ∈ seen then 1 else 0) + dupCountGo (r :: seen) rs

/-- Duplicate-row count of a dataset; pandas returns an all-False mask on a
frame with no columns. -/
def Dataset.dupCount (d : Dataset) : Nat :=
  if d.colmeta.isEmpty then 0 else dupCountGo [] d.rows

/-- Floor of a rational, computed from its reduced fraction. -/
def ratFloor (q : ℚ) : ℤ := Int.fdiv q.num (q.den : ℤ)

/-- Python `round(x, 1)`: half-to-even rounding at one decimal place,
modelled exactly on rationals. -/
def pyRound1 (q : ℚ) : ℚ :=
  let x : ℚ := 10 * q
  let f : ℤ := ratFloor x
  let r : ℚ := x - (f : ℚ)
  let n : ℤ :=
    if r < 1/2 then f
    else if 1/2 < r then f + 1
    else if f % 2 = 0 then f else f + 1
  (n : ℚ) / 10

/-- Per-column mean of the null mask, `dataset.isnull().mean()` for one
column: NaN (None) on an empty column. -/
def colNullFrac (n : Nat) (cells : List Cell) : Option ℚ :=
  if n = 0 then none else some ((nullCount cells : ℚ) / (n : ℚ))

/-- `dataset.isnull().mean().mean()`: the mean over columns of per-column
null fractions, skipping NaN entries; NaN (None) when nothing remains. -/
def isnullMeanMean (d : Dataset) : Option ℚ :=
  let vs := (List.range d.ncols).filterMap (fun j => colNullFrac d.nrows (d.colCells j))
  if vs.isEmpty then none else some (vs.sum / (vs.length : ℚ))

/-- Number of columns whose values all share a single Python type
(`len(dataset[col].apply(type).unique()) == 1`). -/
def singleTypeCount (d : Dataset) : Nat :=
  (List.range d.ncols).countP (fun j => uniqueTypeCount d j = 1)

/-- `calculate_quality_score` (improved_data_health_center.py lines 24-35,
optenalize.py lines 27-37): a weighted blend of the three metrics, times
100, rounded to one decimal.  `none` is the NaN the Python code produces
when `isnull().mean().mean()` is NaN. -/
def calculate_quality_score (d : Dataset) : Option ℚ :=
  match isnullMeanMean d with
  | none => none
  | some mm =>
    let missing_data : ℚ := 1 - mm
    let duplicate_rows : ℚ :=
      1 - (if 0 < d.nrows then (d.dupCount : ℚ) / (d.nrows : ℚ) else 0)
    let type_consistency : ℚ :=
      if 0 < d.ncols then (singleTypeCount d : ℚ) / (d.ncols : ℚ) else 0
    some (pyRound1 ((missing_data * (4/10) + duplicate_rows * (3/10) +
      type_consistency * (3/10)) * 100))

/-! ## Claim-side definitions (from the spec's words, for C1) -/

/-- Total number of null cells, summed column by column. -/
def totalNulls (d : Dataset) : Nat :=
  ((List.range d.ncols).map (fun j => nullCount (d.colCells j))).sum

/-- The fraction of null cells of the whole table (spec: "missing ratio"). -/
def missingFracSpec (d : Dataset) : ℚ :=
  (totalNulls d : ℚ) / ((d.nrows : ℚ) * (d.ncols : ℚ))

/-- The number of duplicated rows divided by the row count (spec:
"duplicate ratio"). -/
def dupFracSpec (d : Dataset) : ℚ := (d.dupCount : ℚ) / (d.nrows : ℚ)

/-- The fraction of columns whose values all have a single Python type
(spec: "type-consistency ratio"). -/
def typeFracSpec (d : Dataset) : ℚ := (singleTypeCount d : ℚ) / (d.ncols : ℚ)

/-! ## Recommendation generator -/

/-- The `params` dict of a recommendation: the keys that occur in the
source are "column", "strategy" and "columns". -/
structure Params where
  column : Option String := none
  strategy : Option String := none
  columns : Option (List String) := none
deriving DecidableEq, Repr

/-- One recommendation record as built by `generate_ai_recommendations`. -/
structure Recommendation where
  issue : String
  column : String
  severity : String
  description : String
  action : String
  params : Params
  auto_fix : Bool
deriving DecidableEq, Repr

/-- Lower-case a string (`str.lower`, ASCII). -/
def pyLower (s : String) : String := s.map Char.toLower

/-- Does `needle` occur as a contiguous sublist of `hay`? -/
def infixOfB (needle : List Char) : List Char → Bool
  | [] => needle.isEmpty
  | c :: cs => needle.isPrefixOf (c :: cs) || infixOfB needle cs

/-- Substring test (Python `needle in hay`). -/
def containsSub (needle hay : String) : Bool :=
  infixOfB needle.toList hay.toList

/-- Python `str(value)` of a cell, as `astype(str)` produces it.  A missing
value becomes the string "nan".  Non-integral rationals print as fractions
here where Python prints decimals; no claim depends on that spelling. -/
def pyStr : Cell → String
  | Cell.null => "nan"
  | Cell.num q => if q.den = 1 then toString q.num else toString q
  | Cell.strV s => s
  | Cell.boolV b => if b then "True" else "False"
  | Cell.dateV y m d =>
      toString y ++ "-" ++ toString m ++ "-" ++ toString d

/-- Python regex `\s`: ASCII whitespace. -/
def isPySpace (c : Char) : Bool :=
  c = ' ' || c = '\t' || c = '\n' || c = '\x0d' || c = '\x0b' || c = '\x0c'

/-- Does the string match `^\s|\s$` (leading or trailing whitespace)? -/
def startsOrEndsWs (s : String) : Bool :=
  let l := s.toList
  !l.isEmpty && (isPySpace (l.headD ' ') || isPySpace (l.getLastD ' '))

/-- Name of the j-th column. -/
def colNameAt (d : Dataset) (j : Nat) : String :=
  (d.colmeta.getD j ⟨"", Dtype.object⟩).name

/-- `dataset[col].isnull().mean()` as a rational (0 when there are no
rows, where pandas yields NaN: both fail the strict > comparisons the
generator makes with it). -/
def colNullFracQ (d : Dataset) (j : Nat) : ℚ :=
  (nullCount (d.colCells j) : ℚ) / (d.nrows : ℚ)

/-- Severity of a Missing Values recommendation
(`"High" if pct > 0.3 else "Medium" if pct > 0.1 else "Low"`). -/
def sevOfPct (p : ℚ) : String :=
  if 3/10 < p then "High" else if 1/10 < p then "Medium" else "Low"

/-- Indices of the columns with at least one null
(`dataset.columns[dataset.isnull().any()]`). -/
def missingColsIdx (d : Dataset) : List Nat :=
  (List.range d.ncols).filter (fun j => 0 < nullCount (d.colCells j))

/-- The Missing Values recommendation for the j-th column. -/
def mkMissingRec (d : Dataset) (j : Nat) : Recommendation :=
  let c := colNameAt d j
  let pct := colNullFracQ d j
  let sev := sevOfPct pct
  let isNum := d.colDtype j == Dtype.numeric
  { issue := "Missing Values", column := c, severity := sev,
    description :=
      if isNum then "Fill missing values in '" ++ c ++ "' with column mean/median"
      else "Fill missing values in '" ++ c ++ "' with most common value",
    action := "fill_missing",
    params := { column := some c,
                strategy := some (if isNum then "mean" else "mode") },
    auto_fix := sev != "High" }

/-- Block 1 of the generator: one Missing Values recommendation per column
containing nulls, in column order. -/
def missingRecs (d : Dataset) : List Recommendation :=
  (missingColsIdx d).map (mkMissingRec d)

/-- Block 2: the Duplicate Rows recommendation, when duplicates exist. -/
def duplicateRecs (d : Dataset) : List Recommendation :=
  let dc := d.dupCount
  if 0 < dc then
    [{ issue := "Duplicate Rows", column := "multiple",
       severity := if (dc : ℚ) / (d.nrows : ℚ) < 1/10 then "Medium" else "High",
       description := "Remove " ++ toString dc ++ " duplicate rows",
       action := "remove_duplicates", params := {}, auto_fix := true }]
  else []

/-- Block 3: one Type Inconsistency recommendation per mixed-type column. -/
def typeRecs (d : Dataset) : List Recommendation :=
  ((List.range d.ncols).filter (fun j => 1 < uniqueTypeCount d j)).map
    (fun j =>
      let c := colNameAt d j
      { issue := "Type Inconsistency", column := c, severity := "Medium",
        description := "Standardize data types in '" ++ c ++ "'",
        action := "fix_types", params := { column := some c },
        auto_fix := true })

/-- Block 4: one Date Format recommendation per column whose lower-cased
name contains "date" or "time" and whose dtype is not datetime64. -/
def dateRecs (d : Dataset) : List Recommendation :=
  ((List.range d.ncols).filter (fun j =>
      (containsSub "date" (pyLower (colNameAt d j)) ||
       containsSub "time" (pyLower (colNameAt d j))) &&
      !(d.colDtype j == Dtype.datetime))).map
    (fun j =>
      let c := colNameAt d j
      { issue := "Date Format", column := c, severity := "Medium",
        description := "Standardize date format in '" ++ c ++ "'",
        action := "standardize_dates", params := { column := some c },
        auto_fix := true })

/-- Names of the columns with more than 70 percent missing values. -/
def highMissingCols (d : Dataset) : List String :=
  ((List.range d.ncols).filter (fun j => 7/10 < colNullFracQ d j)).map
    (colNameAt d)

/-- Block 5: the High Missing Columns recommendation, when such columns
exist; never auto-fix eligible. -/
def highMissingRecs (d : Dataset) : List Recommendation :=
  let hm := highMissingCols d
  if hm.isEmpty then []
  else
    [{ issue := "High Missing Columns", column := String.intercalate ", " hm,
       severity := "High",
       description := "Remove columns with >70% missing values: " ++
         String.intercalate ", " hm,
       action := "remove_high_missing", params := { columns := some hm },
       auto_fix := false }]

/-- Block 6: one Whitespace recommendation per object-dtype column with a
cell whose string form has leading or trailing whitespace. -/
def whitespaceRecs (d : Dataset) : List Recommendation :=
  ((List.range d.ncols).filter (fun j =>
      d.colDtype j == Dtype.object &&
      (d.colCells j).any (fun c => startsOrEndsWs (pyStr c)))).map
    (fun j =>
      let c := colNameAt d j
      { issue := "Whitespace", column := c, severity := "Low",
        description := "Clean leading/trailing whitespace in '" ++ c ++ "'",
        action := "clean_whitespace", params := { column := some c },
        auto_fix := true })

/-- `generate_ai_recommendations` (improved_data_health_center.py lines
38-135): the six detection blocks, in source order. -/
def generate_ai_recommendations (d : Dataset) : List Recommendation :=
  missingRecs d ++ duplicateRecs d ++ typeRecs d ++ dateRecs d ++
  highMissingRecs d ++ whitespaceRecs d

/-! ## Fix applier -/

/-- Keep the first occurrence of each element, dropping the later ones
(`seen` are the elements already kept). -/
def dedupFirstGo {α : Type} [DecidableEq α] (seen : List α) : List α → List α
  | [] => []
  | x :: xs =>
      if x ∈ seen then dedupFirstGo seen xs
      else x :: dedupFirstGo (x :: seen) xs

/-- `df.drop_duplicates()` on the row list: keep the first occurrence of
each distinct row, in order. -/
def dropDuplicateRows (rows : List (List Cell)) : List (List Cell) :=
  dedupFirstGo [] rows

/-- The numeric values of the non-null cells of a column. -/
def nonNullNums (cells : List Cell) : List ℚ :=
  cells.filterMap (fun c => match c with | Cell.num q => some q | _ => none)

/-- `Series.mean()` (skipna): NaN, i.e. `none`, on an all-null column. -/
def listMeanQ (l : List ℚ) : Option ℚ :=
  if l.isEmpty then none else some (l.sum / (l.length : ℚ))

/-- `Series.median()` (skipna). -/
def listMedianQ (l : List ℚ) : Option ℚ :=
  let s := l.mergeSort (fun a b => decide (a ≤ b))
  let n := s.length
  if n = 0 then none
  else if n % 2 = 1 then some (s.getD (n / 2) 0)
  else some ((s.getD (n / 2 - 1) 0 + s.getD (n / 2) 0) / 2)

/-- `Series.mode()[0]`: a most frequent non-null value.  Ties are broken
here by first appearance; pandas orders the modes by value.  No claim
depends on the tie-break. -/
def listModeCell (cells : List Cell) : Option Cell :=
  let vals := cells.filter (fun c => !c.isNull)
  match dedupFirstGo [] vals with
  | [] => none
  | c0 :: rest =>
      some (rest.foldl (fun best c =>
        if vals.count best < vals.count c then c else best) c0)

/-- Replace the j-th cell of every row using `f`. -/
def Dataset.mapColCells (d : Dataset) (j : Nat) (f : Cell → Cell) : Dataset :=
  { d with rows := d.rows.map (fun r =>
      r.mapIdx (fun i c => if i = j then f c else c)) }

/-- Set the dtype of the j-th column. -/
def Dataset.setDtype (d : Dataset) (j : Nat) (dt : Dtype) : Dataset :=
  { d with colmeta := d.colmeta.mapIdx (fun i m =>
      if i = j then { m with dtype := dt } else m) }

/-- `df[col].fillna(v)` on column j: replace the null cells by `v`
(a null `v`, pandas NaN, leaves the column unchanged). -/
def Dataset.fillColNulls (d : Dataset) (j : Nat) (v : Cell) : Dataset :=
  d.mapColCells j (fun c => if c.isNull then v else c)

/-- Drop the named columns (`df.drop(columns=...)`). -/
def Dataset.dropCols (d : Dataset) (cols : List String) : Dataset :=
  { colmeta := d.colmeta.filter (fun m => !cols.contains m.name),
    rows := d.rows.map (fun r =>
      ((r.zip d.colmeta).filter (fun p => !cols.contains p.2.name)).map
        Prod.fst) }

/-- Python `str.strip()`: drop leading and trailing whitespace. -/
def pyStrip (s : String) : String :=
  String.mk (((s.toList.dropWhile isPySpace).reverse.dropWhile
    isPySpace).reverse)

/-- The value of a digit list, most significant first. -/
def digitsToNat (l : List Char) : Nat :=
  l.foldl (fun n c => 10 * n + (c.toNat - '0'.toNat)) 0

/-- Nonempty and all ASCII digits. -/
def allDigits (l : List Char) : Bool := !l.isEmpty && l.all Char.isDigit

/-- Split a character list at the first dot. -/
def splitDot : List Char → (List Char × Option (List Char))
  | [] => ([], none)
  | c :: rest =>
      if c = '.' then ([], some rest)
      else
        let p := splitDot rest
        (c :: p.1, p.2)

/-- Parse a decimal literal with optional sign (`pd.to_numeric` on a
string; unparsable input is NaN under errors="coerce"). -/
def parseRatQ (s : String) : Option ℚ :=
  let l := (pyStrip s).toList
  let signed : Bool × List Char :=
    match l with
    | '-' :: rest => (true, rest)
    | '+' :: rest => (false, rest)
    | _ => (false, l)
  let body := signed.2
  let q? : Option ℚ :=
    match splitDot body with
    | (ip, none) => if allDigits ip then some (digitsToNat ip : ℚ) else none
    | (ip, some fp) =>
        if (ip.all Char.isDigit && fp.all Char.isDigit && !(ip ++ fp).isEmpty)
        then some ((digitsToNat ip : ℚ) +
          (digitsToNat fp : ℚ) / ((10 : ℚ) ^ fp.length))
        else none
  match q? with
  | none => none
  | some q => some (if signed.1 then -q else q)

/-- `pd.to_numeric(cell, errors="coerce")`. -/
def toNumericCell : Cell → Cell
  | Cell.null => Cell.null
  | Cell.num q => Cell.num q
  | Cell.boolV b => Cell.num (if b then 1 else 0)
  | Cell.strV s => match parseRatQ s with
      | some q => Cell.num q
      | none => Cell.null
  | Cell.dateV _ _ _ => Cell.null

/-- Split a character list on a separator character. -/
def splitOnChar (sep : Char) : List Char → List (List Char)
  | [] => [[]]
  | c :: rest =>
      let r := splitOnChar sep rest
      if c = sep then [] :: r
      else match r with
        | [] => [[c]]
        | g :: gs => (c :: g) :: gs

/-- Parse an ISO "YYYY-MM-DD" date.  `pd.to_datetime` accepts many more
formats; the claims settled here never depend on which strings parse. -/
def parseIsoDate (s : String) : Option (Nat × Nat × Nat) :=
  match splitOnChar '-' (pyStrip s).toList with
  | [y, m, d] =>
      if allDigits y && allDigits m && allDigits d then
        some (digitsToNat y, digitsToNat m, digitsToNat d)
      else none
  | _ => none

/-- `pd.to_datetime(cell, errors="coerce")`: NaT is `null`.  A numeric
cell would be an epoch offset in pandas; modelled as NaT, unexercised by
the claims. -/
def toDatetimeCell : Cell → Cell
  | Cell.dateV y m d => Cell.dateV y m d
  | Cell.strV s => match parseIsoDate s with
      | some (y, m, d) => Cell.dateV y m d
      | none => Cell.null
  | _ => Cell.null

/-- Left-pad a number with zeros to the given width. -/
def padNat (w n : Nat) : String :=
  let s := toString n
  if s.length < w then String.mk (List.replicate (w - s.length) '0') ++ s
  else s

/-- `Series.dt.strftime("%Y-%m-%d")` on one cell; NaT becomes NaN. -/
def strftimeYMD : Cell → Cell
  | Cell.dateV y m d =>
      Cell.strV (padNat 4 y ++ "-" ++ padNat 2 m ++ "-" ++ padNat 2 d)
  | _ => Cell.null

/-- The audit message of `fill_missing`. -/
def fillMsg (col strat : String) : String :=
  "Filled missing values in '" ++ col ++ "' using " ++ strat

/-- Effect of one selected recommendation on the working DataFrame `df`:
the new `df` and the audit messages logged (0 or 1), or the uncaught
Python exception (a KeyError from a missing dict key or column label)
that aborts `apply_fixes`.  Translated branch by branch from the loop
body of `apply_fixes` (improved_data_health_center.py lines 146-198),
including the short-circuit column accesses of the `fill_missing`
condition chain and which column accesses sit inside a try/except. -/
def stepResult (df : Dataset) (r : Recommendation) :
    Except String (Dataset × List String) :=
  if r.action = "fill_missing" then
    match r.params.column, r.params.strategy with
    | none, _ => Except.error "KeyError: column"
    | _, none => Except.error "KeyError: strategy"
    | some col, some strat =>
      if strat = "mean" then
        match df.colIndex col with
        | none => Except.error "KeyError"
        | some j =>
          let df' :=
            if df.colDtype j = Dtype.numeric then
              df.fillColNulls j
                (match listMeanQ (nonNullNums (df.colCells j)) with
                 | some q => Cell.num q
                 | none => Cell.null)
            else df
          Except.ok (df', [fillMsg col strat])
      else if strat = "median" then
        match df.colIndex col with
        | none => Except.error "KeyError"
        | some j =>
          let df' :=
            if df.colDtype j = Dtype.numeric then
              df.fillColNulls j
                (match listMedianQ (nonNullNums (df.colCells j)) with
                 | some q => Cell.num q
                 | none => Cell.null)
            else df
          Except.ok (df', [fillMsg col strat])
      else if strat = "mode" then
        match df.colIndex col with
        | none => Except.error "KeyError"
        | some j =>
          let mv := match listModeCell (df.colCells j) with
            | some v => v
            | none => Cell.strV "Missing"
          Except.ok (df.fillColNulls j mv, [fillMsg col strat])
      else Except.ok (df, [fillMsg col strat])
  else if r.action = "remove_duplicates" then
    let df' := if df.colmeta.isEmpty then df
      else { df with rows := dropDuplicateRows df.rows }
    Except.ok (df', ["Removed " ++
      toString (df.rows.length - df'.rows.length) ++ " duplicate rows"])
  else if r.action = "fix_types" then
    match r.params.column with
    | none => Except.error "KeyError: column"
    | some col =>
      match df.colIndex col with
      | none => Except.ok (df, [])
      | some j =>
        if df.colDtype j = Dtype.object then
          Except.ok ((df.mapColCells j toNumericCell).setDtype j
            Dtype.numeric, ["Converted '" ++ col ++ "' to numeric type"])
        else Except.ok (df, [])
  else if r.action = "standardize_dates" then
    match r.params.column with
    | none => Except.error "KeyError: column"
    | some col =>
      match df.colIndex col with
      | none => Except.ok (df, [])
      | some j =>
        let df1 := (df.mapColCells j toDatetimeCell).setDtype j
          Dtype.datetime
        let df2 := (df1.mapColCells j strftimeYMD).setDtype j Dtype.object
        Except.ok (df2, ["Standardized dates in '" ++ col ++ "'"])
  else if r.action = "remove_high_missing" then
    match r.params.columns with
    | none => Except.error "KeyError: columns"
    | some cols =>
      if cols.all (fun c => df.names.contains c) then
        Except.ok (df.dropCols cols,
          ["Removed columns with high missing values: " ++
            String.intercalate ", " cols])
      else Except.error "KeyError: drop"
  else if r.action = "clean_whitespace" then
    match r.params.column with
    | none => Except.error "KeyError: column"
    | some col =>
      match df.colIndex col with
      | none => Except.error "KeyError"
      | some j =>
        if df.colDtype j = Dtype.object then
          Except.ok (df.mapColCells j
            (fun c => Cell.strV (pyStrip (pyStr c))),
            ["Cleaned whitespace in '" ++ col ++ "'"])
        else Except.ok (df, [])
  else Except.ok (df, [])

/-- The state of one `apply_fixes` call: the caller's dataset object (the
`dataset` argument), the working copy `df`, the session audit log, the
stream of timestamps `datetime.now()` will return, whether an uncaught
exception has been raised, and the session quality score once
`apply_fixes` updates it. -/
structure Exec where
  caller : Dataset
  df : Dataset
  log : List (String × String)
  clock : List String
  err : Option String
  sessionScore : Option (Option ℚ)
deriving DecidableEq, Repr

/-- One iteration of the `for rec in selected_recommendations` loop:
after an exception nothing further runs; otherwise the working copy is
updated and each logged message is stamped with the next clock value
(`log_action`, lines 206-209). -/
def applyFixStep (st : Exec) (r : Recommendation) : Exec :=
  if st.err.isSome then st
  else
    match stepResult st.df r with
    | Except.error e => { st with err := some e }
    | Except.ok (df', msgs) =>
        { st with
          df := df'
          log := st.log ++ msgs.map (fun m => (st.clock.headD "", m))
          clock := st.clock.drop msgs.length }

/-- `apply_fixes` (improved_data_health_center.py lines 138-203).  With an
empty selection the dataset is returned unchanged at once; otherwise the
loop runs on a copy (`df = dataset.copy()`: the `df` field starts equal to
`caller` and only `df` is ever updated), and on normal completion the
session quality score is recomputed from the result. -/
def apply_fixes (log0 : List (String × String)) (clock : List String)
    (dataset : Dataset) (recs : List Recommendation) : Exec :=
  let st0 : Exec :=
    { caller := dataset
      df := dataset
      log := log0
      clock := clock
      err := none
      sessionScore := none }
  if recs.isEmpty then st0
  else
    let st := recs.foldl applyFixStep st0
    if st.err.isSome then st
    else { st with sessionScore := some (calculate_quality_score st.df) }

/-! ## Dataset pre-check (dataset_precheck_workflow.py) -/

/-- Python `str.isidentifier` (ASCII): nonempty, first character a letter
or underscore, the rest letters, digits or underscores. -/
def pyIsIdentifier (s : String) : Bool :=
  match s.toList with
  | [] => false
  | c :: cs => (c.isAlpha || c = '_') &&
      cs.all (fun x => x.isAlphanum || x = '_')

/-- Column names that are not Python identifiers. -/
def nonStandardCols (d : Dataset) : List String :=
  d.names.filter (fun c => !pyIsIdentifier c)

/-- Columns whose cells carry more than one Python type
(`dataset[col].apply(type).nunique() > 1`). -/
def mixedColumns (d : Dataset) : List String :=
  ((List.range d.ncols).filter (fun j => 1 < uniqueTypeCount d j)).map
    (colNameAt d)

/-- What `dataset_precheck_workflow` (dataset_precheck_workflow.py lines
4-51) computes and reports: the four quantities it checks, and whether it
declares issues detected (it warns and sets the flag for each nonempty
finding; the final message is "No issues detected" exactly when the flag
stayed False). -/
structure PrecheckReport where
  total_missing : Nat
  duplicate_count : Nat
  non_standard_cols : List String
  mixed_columns : List String
  issues_detected : Bool
deriving DecidableEq, Repr

/-- `dataset_precheck_workflow`: missing values, duplicate rows,
non-standard column names and mixed types are scanned; no whitespace
check appears in this function. -/
def dataset_precheck_workflow (d : Dataset) : PrecheckReport :=
  let tm := totalNulls d
  let dc := d.dupCount
  let ns := nonStandardCols d
  let mx := mixedColumns d
  { total_missing := tm
    duplicate_count := dc
    non_standard_cols := ns
    mixed_columns := mx
    issues_detected := decide (0 < tm) || decide (0 < dc) ||
      !ns.isEmpty || !mx.isEmpty }

/-- Count of whitespace anomalies: cells whose string form has leading or
trailing whitespace, summed over all columns (the "Whitespace Issues"
metric of `run_precheck`,
dataset_precheck_workflow_local_perplexity_working_180225.py lines
27-31). -/
def whitespaceIssueCount (d : Dataset) : Nat :=
  ((List.range d.ncols).map (fun j =>
    (d.colCells j).countP (fun c => startsOrEndsWs (pyStr c)))).sum

/-! ## Helper lemmas -/

lemma list_sum_map_div {α : Type} (l : List α) (f : α → ℚ) (c : ℚ) :
    (l.map (fun x => f x / c)).sum = (l.map f).sum / c := by
  induction l with
  | nil => simp
  | cons a t ih => simp [ih, add_div]

lemma list_sum_le_length (l : List ℚ) (h : ∀ x ∈ l, x ≤ 1) :
    l.sum ≤ (l.length : ℚ) := by
  induction l with
  | nil => simp
  | cons a t ih =>
      simp only [List.sum_cons, List.length_cons, Nat.cast_succ]
      have ha : a ≤ 1 := h a (List.mem_cons_self a t)
      have ht : t.sum ≤ (t.length : ℚ) :=
        ih (fun x hx => h x (List.mem_cons_of_mem a hx))
      linarith

lemma list_sum_nonneg (l : List ℚ) (h : ∀ x ∈ l, 0 ≤ x) : 0 ≤ l.sum := by
  induction l with
  | nil => simp
  | cons a t ih =>
      simp only [List.sum_cons]
      have ha : 0 ≤ a := h a (List.mem_cons_self a t)
      have ht : 0 ≤ t.sum :=
        ih (fun x hx => h x (List.mem_cons_of_mem a hx))
      linarith

lemma dupCountGo_le_length (l : List (List Cell)) :
    ∀ seen, dupCountGo seen l ≤ l.length := by
  induction l with
  | nil => intro seen; simp [dupCountGo]
  | cons r rs ih =>
      intro seen
      simp only [dupCountGo, List.length_cons]
      have := ih (r :: seen)
      split <;> omega

lemma ratFloor_eq_floor (q : ℚ) : ratFloor q = ⌊q⌋ := by
  rw [ratFloor, Rat.floor_def, Int.fdiv_eq_ediv _ (by positivity)]

/-- Half-to-even rounding keeps a value of [0, 100] inside [0, 100]. -/
lemma pyRound1_mem_Icc (q : ℚ) (h0 : 0 ≤ q) (h1 : q ≤ 100) :
    0 ≤ pyRound1 q ∧ pyRound1 q ≤ 100 := by
  have hx0 : (0 : ℚ) ≤ 10 * q := by linarith
  have hx1 : 10 * q ≤ 1000 := by linarith
  rw [pyRound1, ratFloor_eq_floor]
  set x := 10 * q with hxdef
  set f := ⌊x⌋ with hfdef
  have hf0 : 0 ≤ f := Int.floor_nonneg.mpr hx0
  have hfle : (f : ℚ) ≤ x := Int.floor_le x
  have hf1000 : f ≤ 1000 := by
    have : f ≤ ⌊(1000 : ℚ)⌋ := Int.floor_le_floor hx1
    simpa using this
  set n : ℤ := if x - f < 1/2 then f
    else if 1/2 < x - f then f + 1
    else if f % 2 = 0 then f else f + 1 with hndef
  have hn0 : 0 ≤ n := by
    rw [hndef]
    split
    · exact hf0
    · split
      · omega
      · split
        · exact hf0
        · omega
  have hn1000 : n ≤ 1000 := by
    by_cases hftop : f = 1000
    · have hxeq : x = 1000 := by
        have h1000x : (1000 : ℚ) ≤ x := by
          have := hfle
          rw [hftop] at this
          exact_mod_cast this
        linarith
      have : x - f < 1/2 := by rw [hxeq, hftop]; norm_num
      rw [hndef, if_pos this]
      omega
    · have : f ≤ 999 := by omega
      rw [hndef]
      split
      · omega
      · split
        · omega
        · split <;> omega
  constructor
  · positivity
  · rw [div_le_iff₀ (by norm_num : (0:ℚ) < 10)]
    calc (n : ℚ) ≤ (1000 : ℚ) := by exact_mod_cast hn1000
    _ = 100 * 10 := by norm_num

lemma colCells_length (d : Dataset) (j : Nat) :
    (d.colCells j).length = d.nrows := by
  simp [Dataset.colCells, Dataset.nrows]

/-- The mean of per-column null fractions equals the global null
fraction (in a rectangular table every column has `nrows` cells). -/
lemma isnullMeanMean_eq (d : Dataset) (hr : 0 < d.nrows)
    (hc : 0 < d.ncols) :
    isnullMeanMean d =
      some ((totalNulls d : ℚ) / ((d.nrows : ℚ) * (d.ncols : ℚ))) := by
  have hrne : d.nrows ≠ 0 := Nat.pos_iff_ne_zero.mp hr
  have hmap : (List.range d.ncols).filterMap
      (fun j => colNullFrac d.nrows (d.colCells j)) =
      (List.range d.ncols).map
        (fun j => (nullCount (d.colCells j) : ℚ) / (d.nrows : ℚ)) := by
    rw [List.filterMap_eq_map_iff_forall_eq_some.mpr]
    intro j _
    simp [colNullFrac, hrne]
  rw [isnullMeanMean, hmap]
  have hne : ¬ ((List.range d.ncols).map
      (fun j => (nullCount (d.colCells j) : ℚ) / (d.nrows : ℚ))).isEmpty := by
    simp only [List.isEmpty_iff, List.map_eq_nil_iff, List.range_eq_nil]
    omega
  rw [if_neg hne]
  congr 1
  rw [list_sum_map_div, List.length_map, List.length_range]
  rw [totalNulls]
  rw [div_div]
  congr 1
  rw [Nat.cast_list_sum, List.map_map]
  rfl

/-- Closed form of the quality score on a nonempty table, in the shape
the source computes it. -/
lemma quality_score_eq (d : Dataset) (hr : 0 < d.nrows)
    (hc : 0 < d.ncols) :
    calculate_quality_score d =
      some (pyRound1
        (((1 - (totalNulls d : ℚ) / ((d.nrows : ℚ) * (d.ncols : ℚ))) *
            (4/10) +
          (1 - (d.dupCount : ℚ) / (d.nrows : ℚ)) * (3/10) +
          ((singleTypeCount d : ℚ) / (d.ncols : ℚ)) * (3/10)) * 100)) := by
  rw [calculate_quality_score, isnullMeanMean_eq d hr hc]
  simp only [if_pos hr, if_pos hc]

/-! ## C1 -/

/-- C1: on a dataset with at least one row and one column,
`calculate_quality_score` returns exactly
round(100 * (0.4 * (1 - missing ratio) + 0.3 * (1 - duplicate ratio) +
0.3 * type-consistency ratio), 1), where the missing ratio is the
fraction of null cells, the duplicate ratio is the duplicated-row count
over the row count, and the type-consistency ratio is the fraction of
single-Python-type columns. -/
theorem c1_quality_score_formula (d : Dataset) (hwf : d.wfB = true)
    (hr : 0 < d.nrows) (hc : 0 < d.ncols) :
    calculate_quality_score d =
      some (pyRound1 (100 * ((4/10) * (1 - missingFracSpec d) +
        (3/10) * (1 - dupFracSpec d) + (3/10) * typeFracSpec d))) := by
  rw [quality_score_eq d hr hc]
  congr 1
  rw [missingFracSpec, dupFracSpec, typeFracSpec]
  ring

/-- A concrete table for the C1 witness: columns a, b; three rows with one
null and one duplicated row. -/
def dsW1 : Dataset :=
  { colmeta := [⟨"a", Dtype.numeric⟩, ⟨"b", Dtype.numeric⟩]
    rows := [[Cell.num 1, Cell.num 2], [Cell.num 1, Cell.num 2],
      [Cell.null, Cell.num 2]] }

/-- Witness for C1 at `dsW1`. -/
theorem c1_witness :
    calculate_quality_score dsW1 =
      some (pyRound1 (100 * ((4/10) * (1 - missingFracSpec dsW1) +
        (3/10) * (1 - dupFracSpec dsW1) + (3/10) * typeFracSpec dsW1))) :=
  c1_quality_score_formula dsW1 (by decide) (by decide) (by decide)

/-! ## C7 -/

/-- A well-formed table with one column and zero rows. -/
def dsNoRows : Dataset :=
  { colmeta := [⟨"a", Dtype.numeric⟩], rows := [] }

/-- C7 counterexample: on a dataset with zero rows (and a column) the
score is NaN (`none`), not a number between 0 and 100: the column means
of the empty null mask are all NaN, so is their mean, and NaN propagates
through the weighted sum and `round`. -/
theorem c7_counterexample :
    dsNoRows.wfB = true ∧ calculate_quality_score dsNoRows = none := by
  constructor <;> rfl

/-- C7 as amended: on every dataset with at least one row and at least
one column, `calculate_quality_score` returns a numeric score in
[0, 100]; with zero rows or zero columns it returns NaN. -/
theorem c7_amended (d : Dataset) (hwf : d.wfB = true) (hr : 0 < d.nrows)
    (hc : 0 < d.ncols) :
    ∃ q, calculate_quality_score d = some q ∧ 0 ≤ q ∧ q ≤ 100 := by
  rw [quality_score_eq d hr hc]
  refine ⟨_, rfl, ?_⟩
  have hnq : (0 : ℚ) < (d.nrows : ℚ) := by exact_mod_cast hr
  have hkq : (0 : ℚ) < (d.ncols : ℚ) := by exact_mod_cast hc
  set a : ℚ := (totalNulls d : ℚ) / ((d.nrows : ℚ) * (d.ncols : ℚ)) with ha
  set b : ℚ := (d.dupCount : ℚ) / (d.nrows : ℚ) with hb
  set c : ℚ := (singleTypeCount d : ℚ) / (d.ncols : ℚ) with hcq
  have ha0 : 0 ≤ a := by positivity
  have hb0 : 0 ≤ b := by positivity
  have hc0 : 0 ≤ c := by positivity
  have ha1 : a ≤ 1 := by
    rw [ha, div_le_one (by positivity)]
    have hnat : totalNulls d ≤ d.ncols * d.nrows := by
      rw [totalNulls]
      calc ((List.range d.ncols).map
            (fun j => nullCount (d.colCells j))).sum
          ≤ ((List.range d.ncols).map
            (fun j => nullCount (d.colCells j))).length * d.nrows := by
            apply List.sum_le_card_nsmul
            intro x hx
            obtain ⟨j, _, rfl⟩ := List.mem_map.mp hx
            calc nullCount (d.colCells j) ≤ (d.colCells j).length :=
                List.countP_le_length _
            _ = d.nrows := colCells_length d j
        _ = d.ncols * d.nrows := by simp
    calc (totalNulls d : ℚ) ≤ ((d.ncols * d.nrows : ℕ) : ℚ) := by
          exact_mod_cast hnat
    _ = (d.nrows : ℚ) * (d.ncols : ℚ) := by push_cast; ring
  have hb1 : b ≤ 1 := by
    rw [hb, div_le_one hnq]
    have hnat : d.dupCount ≤ d.nrows := by
      rw [Dataset.dupCount]
      split
      · exact Nat.zero_le _
      · exact dupCountGo_le_length d.rows []
    exact_mod_cast hnat
  have hc1 : c ≤ 1 := by
    rw [hcq, div_le_one hkq]
    have hnat : singleTypeCount d ≤ d.ncols := by
      calc singleTypeCount d ≤ (List.range d.ncols).length :=
          List.countP_le_length _
      _ = d.ncols := List.length_range _
    exact_mod_cast hnat
  exact pyRound1_mem_Icc _ (by nlinarith) (by nlinarith)

/-- Witness for C7 at `dsW1`. -/
theorem c7_witness :
    ∃ q, calculate_quality_score dsW1 = some q ∧ 0 ≤ q ∧ q ≤ 100 :=
  c7_amended dsW1 (by decide) (by decide) (by decide)

/-! ## Execution-state lemmas for apply_fixes -/

lemma applyFixStep_caller (st : Exec) (r : Recommendation) :
    (applyFixStep st r).caller = st.caller := by
  rw [applyFixStep]
  split
  · rfl
  · split <;> rfl

lemma foldl_applyFixStep_caller (recs : List Recommendation) :
    ∀ st : Exec, (recs.foldl applyFixStep st).caller = st.caller := by
  induction recs with
  | nil => intro st; rfl
  | cons r rs ih =>
      intro st
      rw [List.foldl_cons, ih, applyFixStep_caller]

lemma apply_fixes_caller (log0 : List (String × String))
    (clock : List String) (d : Dataset) (recs : List Recommendation) :
    (apply_fixes log0 clock d recs).caller = d := by
  rw [apply_fixes]
  split
  · rfl
  · simp only []
    split
    · exact foldl_applyFixStep_caller recs _
    · exact foldl_applyFixStep_caller recs _

lemma applyFixStep_df_err (st1 st2 : Exec) (r : Recommendation)
    (hdf : st1.df = st2.df) (herr : st1.err = st2.err) :
    (applyFixStep st1 r).df = (applyFixStep st2 r).df ∧
    (applyFixStep st1 r).err = (applyFixStep st2 r).err := by
  rw [applyFixStep, applyFixStep, ← herr, ← hdf]
  split
  · exact ⟨hdf, herr⟩
  · split <;> exact ⟨rfl, rfl⟩

lemma foldl_applyFixStep_df_err (recs : List Recommendation) :
    ∀ st1 st2 : Exec, st1.df = st2.df → st1.err = st2.err →
    (recs.foldl applyFixStep st1).df = (recs.foldl applyFixStep st2).df ∧
    (recs.foldl applyFixStep st1).err =
      (recs.foldl applyFixStep st2).err := by
  induction recs with
  | nil => intro st1 st2 hdf herr; exact ⟨hdf, herr⟩
  | cons r rs ih =>
      intro st1 st2 hdf herr
      rw [List.foldl_cons, List.foldl_cons]
      obtain ⟨h1, h2⟩ := applyFixStep_df_err st1 st2 r hdf herr
      exact ih _ _ h1 h2

lemma apply_fixes_df_indep (log1 log2 : List (String × String))
    (clock1 clock2 : List String) (d : Dataset)
    (recs : List Recommendation) :
    (apply_fixes log1 clock1 d recs).df =
      (apply_fixes log2 clock2 d recs).df := by
  rw [apply_fixes, apply_fixes]
  split
  · rfl
  · simp only []
    obtain ⟨hdf, herr⟩ := foldl_applyFixStep_df_err recs
      { caller := d, df := d, log := log1, clock := clock1, err := none,
        sessionScore := none }
      { caller := d, df := d, log := log2, clock := clock2, err := none,
        sessionScore := none } rfl rfl
    rw [herr]
    split
    · exact hdf
    · exact hdf

/-! ## C8 -/

/-- C8: `apply_fixes` never mutates the dataset object handed to it: the
loop works on `df = dataset.copy()` and every update targets the copy, so
after the call the caller's dataset equals its value before the call. -/
theorem c8_input_unchanged (log0 : List (String × String))
    (clock : List String) (d : Dataset) (recs : List Recommendation)
    (hne : recs ≠ []) :
    (apply_fixes log0 clock d recs).caller = d :=
  apply_fixes_caller log0 clock d recs

/-- Witness for C8: one selected fix, the input object is untouched. -/
theorem c8_witness :
    (apply_fixes [] ["t1"] dsW1
      [{ issue := "Duplicate Rows", column := "multiple",
         severity := "High", description := "Remove 1 duplicate rows",
         action := "remove_duplicates", params := {},
         auto_fix := true }]).caller = dsW1 :=
  c8_input_unchanged [] ["t1"] dsW1 _ (by decide)

/-! ## C2 -/

/-- A one-column table whose two rows are identical. -/
def dsDup : Dataset :=
  { colmeta := [⟨"a", Dtype.numeric⟩], rows := [[Cell.num 1], [Cell.num 1]] }

/-- The Duplicate Rows recommendation `generate_ai_recommendations`
produces for `dsDup`. -/
def dupRecDsDup : Recommendation :=
  { issue := "Duplicate Rows", column := "multiple", severity := "High",
    description := "Remove 1 duplicate rows",
    action := "remove_duplicates", params := {}, auto_fix := true }

/-- C2 counterexample: a nonempty selection (the generated deduplication
fix) is applied, the returned dataset has changed, yet the dataset object
passed in still holds its duplicate rows: the input does not reflect the
chosen fixes. -/
theorem c2_counterexample :
    dupRecDsDup ∈ generate_ai_recommendations dsDup ∧
    (apply_fixes [] ["t1"] dsDup [dupRecDsDup]).caller = dsDup ∧
    ¬ dsDup.rows.Nodup ∧
    (apply_fixes [] ["t1"] dsDup [dupRecDsDup]).df ≠ dsDup := by
  refine ⟨by with_unfolding_all decide, ?_, by decide,
    by with_unfolding_all decide⟩
  exact apply_fixes_caller [] ["t1"] dsDup [dupRecDsDup]

/-- C2 as amended: for every dataset and nonempty selection, `apply_fixes`
leaves the dataset object passed in unchanged and returns a new dataset,
the result of applying the chosen fixes in order to a copy of the
input. -/
theorem c2_amended (log0 : List (String × String)) (clock : List String)
    (d : Dataset) (recs : List Recommendation) (hne : recs ≠ []) :
    (apply_fixes log0 clock d recs).caller = d ∧
    (apply_fixes log0 clock d recs).df =
      (recs.foldl applyFixStep
        { caller := d, df := d, log := log0, clock := clock, err := none,
          sessionScore := none }).df := by
  refine ⟨apply_fixes_caller log0 clock d recs, ?_⟩
  rw [apply_fixes]
  rw [if_neg (by simpa using hne)]
  simp only []
  split
  · rfl
  · rfl

/-- Witness for C2 as amended. -/
theorem c2_amended_witness :
    (apply_fixes [] ["t1"] dsDup [dupRecDsDup]).caller = dsDup ∧
    (apply_fixes [] ["t1"] dsDup [dupRecDsDup]).df =
      ([dupRecDsDup].foldl applyFixStep
        { caller := dsDup, df := dsDup, log := [], clock := ["t1"],
          err := none, sessionScore := none }).df :=
  c2_amended [] ["t1"] dsDup [dupRecDsDup] (by decide)

/-! ## C3 -/

/-- C3: two runs on equal datasets and equal selections produce equal
output datasets, whatever the prior session log and whatever timestamps
`datetime.now()` returns (the clock only enters the audit log), and the
quality score is a function of the dataset alone. -/
theorem c3_deterministic (log1 log2 : List (String × String))
    (clock1 clock2 : List String) (d1 d2 : Dataset)
    (recs1 recs2 : List Recommendation)
    (hd : d1 = d2) (hr : recs1 = recs2) :
    (apply_fixes log1 clock1 d1 recs1).df =
      (apply_fixes log2 clock2 d2 recs2).df ∧
    calculate_quality_score d1 = calculate_quality_score d2 := by
  subst hd
  subst hr
  exact ⟨apply_fixes_df_indep log1 log2 clock1 clock2 d1 recs1, rfl⟩

/-- Witness for C3: two runs with different logs and clocks agree. -/
theorem c3_witness :
    (apply_fixes [] ["t1"] dsDup [dupRecDsDup]).df =
      (apply_fixes [("t0", "old")] ["u1", "u2"] dsDup [dupRecDsDup]).df ∧
    calculate_quality_score dsDup = calculate_quality_score dsDup :=
  c3_deterministic [] [("t0", "old")] ["t1"] ["u1", "u2"] dsDup dsDup
    [dupRecDsDup] [dupRecDsDup] rfl rfl

/-! ## C5: audit log -/

/-- Each loop iteration logs zero or one messages, and when it leaves the
working DataFrame unchanged with an empty message list the pair is
exactly `(df, [])`. -/
lemma stepResult_msgs (df : Dataset) (r : Recommendation) (df' : Dataset)
    (msgs : List String) (h : stepResult df r = Except.ok (df', msgs)) :
    (msgs = [] ∧ df' = df) ∨ ∃ m, msgs = [m] := by
  unfold stepResult at h
  repeat' split at h
  all_goals try simp only [Except.ok.injEq, Prod.mk.injEq] at h
  all_goals first
    | (rcases h with ⟨hdf, hm⟩
       subst hm
       first
         | exact Or.inr ⟨_, rfl⟩
         | exact Or.inl ⟨rfl, hdf.symm⟩)
    | exact absurd h (by simp)

/-- Per-iteration audit-log facts: at most one entry is appended, always
at the end, and an iteration that changes the working DataFrame appends
exactly one entry. -/
lemma applyFixStep_log (st : Exec) (r : Recommendation) :
    ((applyFixStep st r).log = st.log ∨
      ∃ e, (applyFixStep st r).log = st.log ++ [e]) ∧
    ((applyFixStep st r).df ≠ st.df →
      ∃ e, (applyFixStep st r).log = st.log ++ [e]) := by
  rw [applyFixStep]
  split
  · exact ⟨Or.inl rfl, fun h => absurd rfl h⟩
  · rcases hsr : stepResult st.df r with e | ⟨df', msgs⟩
    · simp [hsr]
    · simp only [hsr]
      rcases stepResult_msgs st.df r df' msgs hsr with ⟨hm, hdf⟩ | ⟨m, hm⟩
      · subst hm
        subst hdf
        simp
      · subst hm
        exact ⟨Or.inr ⟨_, rfl⟩, fun _ => ⟨_, rfl⟩⟩

lemma applyFixStep_log_grows (st : Exec) (r : Recommendation) :
    st.log <+: (applyFixStep st r).log := by
  rcases (applyFixStep_log st r).1 with h | ⟨e, h⟩
  · rw [h]
  · rw [h]
    exact ⟨[e], rfl⟩

lemma foldl_applyFixStep_log_grows (recs : List Recommendation) :
    ∀ st : Exec, st.log <+: (recs.foldl applyFixStep st).log := by
  induction recs with
  | nil => intro st; exact List.prefix_refl _
  | cons r rs ih =>
      intro st
      exact (applyFixStep_log_grows st r).trans (ih _)

/-- C5: during a run of `apply_fixes` the session audit log only grows at
the end (the log present before the call is a prefix of the log after
it, so existing entries are never altered or removed and new entries
appear in application order), each loop iteration appends at most one
timestamped entry, and an iteration that mutates the working DataFrame
appends exactly one entry recording it. -/
theorem c5_audit_log (log0 : List (String × String))
    (clock : List String) (d : Dataset) (recs : List Recommendation)
    (st : Exec) (r : Recommendation) :
    log0 <+: (apply_fixes log0 clock d recs).log ∧
    ((applyFixStep st r).log = st.log ∨
      ∃ e, (applyFixStep st r).log = st.log ++ [e]) ∧
    ((applyFixStep st r).df ≠ st.df →
      ∃ e, (applyFixStep st r).log = st.log ++ [e]) := by
  refine ⟨?_, (applyFixStep_log st r).1, (applyFixStep_log st r).2⟩
  rw [apply_fixes]
  split
  · exact List.prefix_refl _
  · simp only []
    split
    · exact foldl_applyFixStep_log_grows recs
        { caller := d, df := d, log := log0, clock := clock, err := none,
          sessionScore := none }
    · exact foldl_applyFixStep_log_grows recs
        { caller := d, df := d, log := log0, clock := clock, err := none,
          sessionScore := none }

/-- The state at the start of the `apply_fixes` loop on `dsDup`. -/
def st0DsDup : Exec :=
  { caller := dsDup, df := dsDup, log := [], clock := ["t1"],
    err := none, sessionScore := none }

/-- Witness for C5: a deduplication step that mutates the DataFrame
appends exactly one log entry. -/
theorem c5_witness :
    ∃ e, (applyFixStep st0DsDup dupRecDsDup).log =
      st0DsDup.log ++ [e] :=
  (c5_audit_log [] ["t1"] dsDup [dupRecDsDup] st0DsDup
    dupRecDsDup).2.2 (by decide)

/-! ## C10: deduplication -/

/-- The spec's description of `drop_duplicates`: the first occurrence of
each distinct element, in the original relative order (later occurrences
of the head are filtered away, recursively, with the list length as
structural fuel). -/
def firstOccAux {α : Type} [DecidableEq α] : Nat → List α → List α
  | 0, _ => []
  | _ + 1, [] => []
  | n + 1, x :: xs => x :: firstOccAux n (xs.filter (fun y => y ≠ x))

/-- First occurrences of the distinct elements of `l`, in order. -/
def firstOcc {α : Type} [DecidableEq α] (l : List α) : List α :=
  firstOccAux l.length l

lemma dedupFirstGo_congr {α : Type} [DecidableEq α] (l : List α) :
    ∀ s1 s2 : List α, (∀ x, x ∈ s1 ↔ x ∈ s2) →
    dedupFirstGo s1 l = dedupFirstGo s2 l := by
  induction l with
  | nil => intro s1 s2 _; rfl
  | cons x xs ih =>
      intro s1 s2 h
      simp only [dedupFirstGo]
      by_cases hx : x ∈ s1
      · rw [if_pos hx, if_pos ((h x).mp hx)]
        exact ih s1 s2 h
      · rw [if_neg hx, if_neg (fun c => hx ((h x).mpr c))]
        congr 1
        refine ih _ _ ?_
        intro y
        simp only [List.mem_cons]
        exact or_congr Iff.rfl (h y)

lemma dedupFirstGo_filter {α : Type} [DecidableEq α] (l : List α) :
    ∀ (s : List α) (r : α),
    dedupFirstGo (r :: s) l = dedupFirstGo s (l.filter (fun y => y ≠ r)) := by
  induction l with
  | nil => intro s r; rfl
  | cons x xs ih =>
      intro s r
      by_cases hxr : x = r
      · subst hxr
        have hf : (x :: xs).filter (fun y => y ≠ x) =
            xs.filter (fun y => y ≠ x) := by simp
        rw [hf]
        have hmem : x ∈ x :: s := List.mem_cons_self x s
        simp only [dedupFirstGo, if_pos hmem]
        exact ih s x
      · have hf : (x :: xs).filter (fun y => y ≠ r) =
            x :: xs.filter (fun y => y ≠ r) := by simp [hxr]
        rw [hf]
        by_cases hxs : x ∈ s
        · have h1 : x ∈ r :: s := List.mem_cons_of_mem _ hxs
          simp only [dedupFirstGo, if_pos h1, if_pos hxs]
          exact ih s r
        · have h1 : x ∉ r :: s := by
            simp only [List.mem_cons]
            tauto
          simp only [dedupFirstGo, if_neg h1, if_neg hxs]
          congr 1
          rw [dedupFirstGo_congr xs (x :: r :: s) (r :: x :: s)
            (by intro y; simp only [List.mem_cons]; tauto)]
          exact ih (x :: s) r

lemma dedupFirstGo_nil_eq_firstOccAux {α : Type} [DecidableEq α] :
    ∀ (n : Nat) (l : List α), l.length ≤ n →
    dedupFirstGo [] l = firstOccAux n l := by
  intro n
  induction n with
  | zero =>
      intro l h
      rw [List.eq_nil_of_length_eq_zero (Nat.le_zero.mp h)]
      rfl
  | succ n ih =>
      intro l h
      match l with
      | [] => rfl
      | x :: xs =>
          simp only [firstOccAux]
          have hx : (x : α) ∉ ([] : List α) := List.not_mem_nil x
          simp only [dedupFirstGo, if_neg hx]
          congr 1
          rw [show (x :: ([] : List α)) = [x] from rfl] at *
          rw [show ([x] : List α) = x :: [] from rfl, dedupFirstGo_filter]
          refine ih _ ?_
          calc (xs.filter (fun y => y ≠ x)).length ≤ xs.length :=
              List.length_filter_le _ _
          _ ≤ n := by
              have := h
              simp only [List.length_cons] at this
              omega

/-- `drop_duplicates` computes exactly the first occurrences of the
distinct rows, in their original relative order. -/
lemma dropDuplicateRows_eq_firstOcc (rows : List (List Cell)) :
    dropDuplicateRows rows = firstOcc rows :=
  dedupFirstGo_nil_eq_firstOccAux rows.length rows le_rfl

lemma mem_dedupFirstGo {α : Type} [DecidableEq α] (l : List α) :
    ∀ (s : List α) (x : α), x ∈ dedupFirstGo s l → x ∈ l ∧ x ∉ s := by
  induction l with
  | nil => intro s x h; simp [dedupFirstGo] at h
  | cons y ys ih =>
      intro s x h
      simp only [dedupFirstGo] at h
      by_cases hy : y ∈ s
      · rw [if_pos hy] at h
        obtain ⟨h1, h2⟩ := ih s x h
        exact ⟨List.mem_cons_of_mem y h1, h2⟩
      · rw [if_neg hy] at h
        rcases List.mem_cons.mp h with rfl | h
        · exact ⟨List.mem_cons_self x ys, hy⟩
        · obtain ⟨h1, h2⟩ := ih (y :: s) x h
          refine ⟨List.mem_cons_of_mem y h1, fun c => h2 ?_⟩
          exact List.mem_cons_of_mem y c

lemma dedupFirstGo_nodup {α : Type} [DecidableEq α] (l : List α) :
    ∀ s : List α, (dedupFirstGo s l).Nodup := by
  induction l with
  | nil => intro s; simp [dedupFirstGo]
  | cons y ys ih =>
      intro s
      simp only [dedupFirstGo]
      by_cases hy : y ∈ s
      · rw [if_pos hy]
        exact ih s
      · rw [if_neg hy]
        refine List.nodup_cons.mpr ⟨fun c => ?_, ih (y :: s)⟩
        exact (mem_dedupFirstGo ys (y :: s) y c).2 (List.mem_cons_self y s)

/-- Unfolding of the remove_duplicates branch of the loop body. -/
lemma stepResult_remove_dup (df : Dataset) (r : Recommendation)
    (ha : r.action = "remove_duplicates") :
    stepResult df r = Except.ok
      (if df.colmeta.isEmpty then df
       else { df with rows := dropDuplicateRows df.rows },
       ["Removed " ++ toString (df.rows.length -
          (if df.colmeta.isEmpty then df
           else { df with rows := dropDuplicateRows df.rows }).rows.length)
        ++ " duplicate rows"]) := by
  unfold stepResult
  rw [ha]
  rw [if_neg (by decide), if_pos rfl]

/-- The final session-score update of `apply_fixes` does not change the
returned DataFrame: on a nonempty selection the result's `df` is the fold
of the loop body. -/
lemma apply_fixes_df_foldl (log0 : List (String × String))
    (clock : List String) (d : Dataset) (recs : List Recommendation)
    (hrecs : ¬ recs.isEmpty = true) :
    (apply_fixes log0 clock d recs).df =
      (recs.foldl applyFixStep
        { caller := d, df := d, log := log0, clock := clock, err := none,
          sessionScore := none }).df := by
  rw [apply_fixes, if_neg hrecs]
  simp only []
  split
  · rfl
  · rfl

/-- Effect of one remove_duplicates iteration on a non-failed state with
a nonempty column set. -/
lemma applyFixStep_remove_dup (st : Exec) (r : Recommendation)
    (ha : r.action = "remove_duplicates") (herr : st.err = none)
    (hne : ¬ st.df.colmeta.isEmpty = true) :
    (applyFixStep st r).df =
      { st.df with rows := dropDuplicateRows st.df.rows } := by
  rw [applyFixStep, if_neg (by simp [herr]),
    stepResult_remove_dup st.df r ha]
  simp only [if_neg hne]

/-- C10 as amended: when the selection consists of the remove_duplicates
recommendation alone (and the table has at least one column), the
returned dataset keeps the columns, consists of the first occurrence of
each distinct input row in their original relative order, and contains
no duplicate rows. -/
theorem c10_amended (log0 : List (String × String)) (clock : List String)
    (d : Dataset) (r : Recommendation)
    (ha : r.action = "remove_duplicates") (hc : 0 < d.ncols) :
    (apply_fixes log0 clock d [r]).df.colmeta = d.colmeta ∧
    (apply_fixes log0 clock d [r]).df.rows = firstOcc d.rows ∧
    (apply_fixes log0 clock d [r]).df.rows.Nodup := by
  have hne : ¬ d.colmeta.isEmpty = true := by
    rw [List.isEmpty_iff]
    intro h
    rw [Dataset.ncols, h] at hc
    simp at hc
  rw [apply_fixes_df_foldl log0 clock d [r] (by simp)]
  simp only [List.foldl_cons, List.foldl_nil]
  rw [applyFixStep_remove_dup
    { caller := d, df := d, log := log0, clock := clock, err := none,
      sessionScore := none } r ha rfl hne]
  exact ⟨rfl, dropDuplicateRows_eq_firstOcc d.rows,
    dedupFirstGo_nodup d.rows []⟩

/-- The Duplicate Rows recommendation generated for `dsW1`. -/
def dupRecDsW1 : Recommendation :=
  { issue := "Duplicate Rows", column := "multiple", severity := "High",
    description := "Remove 1 duplicate rows",
    action := "remove_duplicates", params := {}, auto_fix := true }

/-- C10 counterexample: for `dsW1` the generator proposes a fill and a
deduplication; selecting both (in the order they are generated) makes the
fill merge the null row into the others before the deduplication runs, so
the returned rows are not the first occurrences of the distinct rows of
the input. -/
theorem c10_counterexample :
    dupRecDsW1.action = "remove_duplicates" ∧
    mkMissingRec dsW1 0 ∈ generate_ai_recommendations dsW1 ∧
    dupRecDsW1 ∈ generate_ai_recommendations dsW1 ∧
    (apply_fixes [] ["t1", "t2"] dsW1
      [mkMissingRec dsW1 0, dupRecDsW1]).df.rows ≠ firstOcc dsW1.rows := by
  with_unfolding_all decide

/-- Witness for C10 as amended. -/
theorem c10_witness :
    (apply_fixes [] ["t1"] dsDup [dupRecDsDup]).df.colmeta =
      dsDup.colmeta ∧
    (apply_fixes [] ["t1"] dsDup [dupRecDsDup]).df.rows =
      firstOcc dsDup.rows ∧
    (apply_fixes [] ["t1"] dsDup [dupRecDsDup]).df.rows.Nodup :=
  c10_amended [] ["t1"] dsDup dupRecDsDup (by decide) (by decide)

/-! ## C4: the pre-check scan -/

/-- A well-formed table whose only anomaly is a leading space in one
cell. -/
def dsWs : Dataset :=
  { colmeta := [⟨"a", Dtype.object⟩], rows := [[Cell.strV " x"]] }

/-- C4 counterexample: `dataset_precheck_workflow` checks only four issue
classes; a dataset whose sole issue is a whitespace anomaly is reported
issue-free even though one of the five spec-listed issue classes is
present. -/
theorem c4_counterexample :
    dsWs.wfB = true ∧
    (dataset_precheck_workflow dsWs).issues_detected = false ∧
    0 < whitespaceIssueCount dsWs := by
  refine ⟨by decide, by decide, by decide⟩

/-- C4 as amended: the pre-check computes the missing-cell count, the
duplicate-row count, the non-standard column names and the mixed-type
columns — whitespace anomalies are not scanned by it — and it reports
the dataset issue-free exactly when none of those four findings is
present. -/
theorem c4_amended (d : Dataset) :
    (dataset_precheck_workflow d).total_missing = totalNulls d ∧
    (dataset_precheck_workflow d).duplicate_count = d.dupCount ∧
    (dataset_precheck_workflow d).non_standard_cols = nonStandardCols d ∧
    (dataset_precheck_workflow d).mixed_columns = mixedColumns d ∧
    ((dataset_precheck_workflow d).issues_detected = false ↔
      (totalNulls d = 0 ∧ d.dupCount = 0 ∧ nonStandardCols d = [] ∧
        mixedColumns d = [])) := by
  refine ⟨rfl, rfl, rfl, rfl, ?_⟩
  simp only [dataset_precheck_workflow, Bool.or_eq_false_iff,
    decide_eq_false_iff_not, Bool.not_eq_false', List.isEmpty_iff]
  constructor
  · rintro ⟨⟨⟨h1, h2⟩, h3⟩, h4⟩
    exact ⟨by omega, by omega, h3, h4⟩
  · rintro ⟨h1, h2, h3, h4⟩
    exact ⟨⟨⟨by omega, by omega⟩, h3⟩, h4⟩

/-! ## C6: shape of the recommendations -/

lemma sevOfPct_cases (p : ℚ) :
    sevOfPct p = "High" ∨ sevOfPct p = "Medium" ∨ sevOfPct p = "Low" := by
  rw [sevOfPct]
  split
  · exact Or.inl rfl
  · split
    · exact Or.inr (Or.inl rfl)
    · exact Or.inr (Or.inr rfl)

lemma mem_missingRecs_iff (d : Dataset) (r : Recommendation) :
    r ∈ missingRecs d ↔
      ∃ j, j ∈ missingColsIdx d ∧ r = mkMissingRec d j := by
  constructor
  · intro h
    obtain ⟨j, hj, hfj⟩ := List.mem_map.mp h
    exact ⟨j, hj, hfj.symm⟩
  · rintro ⟨j, hj, rfl⟩
    exact List.mem_map.mpr ⟨j, hj, rfl⟩

lemma mem_duplicateRecs (d : Dataset) (r : Recommendation)
    (h : r ∈ duplicateRecs d) :
    r.issue = "Duplicate Rows" ∧
    (r.severity = "High" ∨ r.severity = "Medium") ∧
    r.auto_fix = true := by
  simp only [duplicateRecs] at h
  split at h
  · rcases List.mem_singleton.mp h with rfl
    refine ⟨rfl, ?_, rfl⟩
    simp only []
    split
    · exact Or.inr rfl
    · exact Or.inl rfl
  · simp at h

lemma mem_typeRecs (d : Dataset) (r : Recommendation)
    (h : r ∈ typeRecs d) :
    r.issue = "Type Inconsistency" ∧ r.severity = "Medium" := by
  obtain ⟨j, _, hfj⟩ := List.mem_map.mp h
  rw [← hfj]
  exact ⟨rfl, rfl⟩

lemma mem_dateRecs (d : Dataset) (r : Recommendation)
    (h : r ∈ dateRecs d) :
    r.issue = "Date Format" ∧ r.severity = "Medium" := by
  obtain ⟨j, _, hfj⟩ := List.mem_map.mp h
  rw [← hfj]
  exact ⟨rfl, rfl⟩

lemma mem_highMissingRecs (d : Dataset) (r : Recommendation)
    (h : r ∈ highMissingRecs d) :
    r.issue = "High Missing Columns" ∧ r.severity = "High" ∧
    r.auto_fix = false := by
  simp only [highMissingRecs] at h
  split at h
  · simp at h
  · rcases List.mem_singleton.mp h with rfl
    exact ⟨rfl, rfl, rfl⟩

lemma mem_whitespaceRecs (d : Dataset) (r : Recommendation)
    (h : r ∈ whitespaceRecs d) :
    r.issue = "Whitespace" ∧ r.severity = "Low" := by
  obtain ⟨j, _, hfj⟩ := List.mem_map.mp h
  rw [← hfj]
  exact ⟨rfl, rfl⟩

/-- C6: every record in the generator's output carries its structural
fields (issue kind, affected column(s), severity, description, action
name, parameter mapping and auto-fix flag are fields of the
`Recommendation` record by construction), and the severity is always one
of High, Medium, Low. -/
theorem c6_recommendation_shape (d : Dataset) (r : Recommendation)
    (hr : r ∈ generate_ai_recommendations d) :
    r.severity = "High" ∨ r.severity = "Medium" ∨ r.severity = "Low" := by
  simp only [generate_ai_recommendations, List.mem_append] at hr
  rcases hr with ((((h | h) | h) | h) | h) | h
  · obtain ⟨j, _, hfj⟩ := List.mem_map.mp h
    rw [← hfj]
    exact sevOfPct_cases (colNullFracQ d j)
  · rcases (mem_duplicateRecs d r h).2.1 with hs | hs
    · exact Or.inl hs
    · exact Or.inr (Or.inl hs)
  · exact Or.inr (Or.inl (mem_typeRecs d r h).2)
  · exact Or.inr (Or.inl (mem_dateRecs d r h).2)
  · exact Or.inl (mem_highMissingRecs d r h).2.1
  · exact Or.inr (Or.inr (mem_whitespaceRecs d r h).2)

/-- Witness for C6: the Missing Values recommendation for column a of
`dsW1` is in the output and its severity is one of the three levels. -/
theorem c6_witness :
    (mkMissingRec dsW1 0).severity = "High" ∨
    (mkMissingRec dsW1 0).severity = "Medium" ∨
    (mkMissingRec dsW1 0).severity = "Low" :=
  c6_recommendation_shape dsW1 (mkMissingRec dsW1 0)
    (by with_unfolding_all decide)

/-! ## C9: severity thresholds of the missing-value recommendations -/

lemma sevOfPct_high_iff (p : ℚ) : sevOfPct p = "High" ↔ 3/10 < p := by
  rw [sevOfPct]
  by_cases h3 : 3/10 < p
  · rw [if_pos h3]
    exact ⟨fun _ => h3, fun _ => rfl⟩
  · rw [if_neg h3]
    split
    · exact ⟨fun h => absurd h (by decide), fun hc => absurd hc h3⟩
    · exact ⟨fun h => absurd h (by decide), fun hc => absurd hc h3⟩

lemma sevOfPct_medium_iff (p : ℚ) :
    sevOfPct p = "Medium" ↔ (1/10 < p ∧ ¬ 3/10 < p) := by
  rw [sevOfPct]
  by_cases h3 : 3/10 < p
  · rw [if_pos h3]
    exact ⟨fun h => absurd h (by decide), fun hc => absurd h3 hc.2⟩
  · rw [if_neg h3]
    by_cases h1 : 1/10 < p
    · rw [if_pos h1]
      exact ⟨fun _ => ⟨h1, h3⟩, fun _ => rfl⟩
    · rw [if_neg h1]
      exact ⟨fun h => absurd h (by decide), fun hc => absurd hc.1 h1⟩

lemma sevOfPct_low_iff (p : ℚ) :
    sevOfPct p = "Low" ↔ (¬ 1/10 < p ∧ ¬ 3/10 < p) := by
  rw [sevOfPct]
  by_cases h3 : 3/10 < p
  · rw [if_pos h3]
    exact ⟨fun h => absurd h (by decide), fun hc => absurd h3 hc.2⟩
  · rw [if_neg h3]
    by_cases h1 : 1/10 < p
    · rw [if_pos h1]
      exact ⟨fun h => absurd h (by decide), fun hc => absurd h1 hc.1⟩
    · rw [if_neg h1]
      exact ⟨fun _ => ⟨h1, h3⟩, fun _ => rfl⟩

lemma wfB_names_nodup (d : Dataset) (h : d.wfB = true) :
    d.names.Nodup := by
  rw [Dataset.wfB] at h
  simp only [Bool.and_eq_true, decide_eq_true_eq] at h
  exact h.1.2

lemma names_length (d : Dataset) : d.names.length = d.ncols := by
  simp [Dataset.names, Dataset.ncols]

lemma colNameAt_inj (d : Dataset) (hnd : d.names.Nodup) {j j' : Nat}
    (hj : j < d.ncols) (hj' : j' < d.ncols)
    (h : colNameAt d j = colNameAt d j') : j = j' := by
  have hl : j < d.names.length := by rw [names_length]; exact hj
  have hl' : j' < d.names.length := by rw [names_length]; exact hj'
  have e1 : colNameAt d j = d.names.get ⟨j, hl⟩ := by
    rw [colNameAt]
    rw [List.getD_eq_getElem _ _ (show j < d.colmeta.length from hj)]
    simp [Dataset.names]
  have e2 : colNameAt d j' = d.names.get ⟨j', hl'⟩ := by
    rw [colNameAt]
    rw [List.getD_eq_getElem _ _ (show j' < d.colmeta.length from hj')]
    simp [Dataset.names]
  rw [e1, e2] at h
  have := (List.Nodup.get_inj_iff hnd).mp h
  exact congrArg Fin.val this

lemma mkMissingRec_issue (d : Dataset) (j : Nat) :
    (mkMissingRec d j).issue = "Missing Values" := rfl

lemma mem_gen_of_missing (d : Dataset) (r : Recommendation)
    (h : r ∈ generate_ai_recommendations d)
    (hi : r.issue = "Missing Values") : r ∈ missingRecs d := by
  simp only [generate_ai_recommendations, List.mem_append] at h
  rcases h with ((((h | h) | h) | h) | h) | h
  · exact h
  · exact absurd (hi.symm.trans (mem_duplicateRecs d r h).1) (by decide)
  · exact absurd (hi.symm.trans (mem_typeRecs d r h).1) (by decide)
  · exact absurd (hi.symm.trans (mem_dateRecs d r h).1) (by decide)
  · exact absurd (hi.symm.trans (mem_highMissingRecs d r h).1) (by decide)
  · exact absurd (hi.symm.trans (mem_whitespaceRecs d r h).1) (by decide)

lemma mem_gen_of_high (d : Dataset) (r : Recommendation)
    (h : r ∈ generate_ai_recommendations d)
    (hi : r.issue = "High Missing Columns") : r ∈ highMissingRecs d := by
  simp only [generate_ai_recommendations, List.mem_append] at h
  rcases h with ((((h | h) | h) | h) | h) | h
  · obtain ⟨j, _, hfj⟩ := List.mem_map.mp h
    rw [← hfj, mkMissingRec_issue] at hi
    exact absurd hi (by decide)
  · exact absurd (hi.symm.trans (mem_duplicateRecs d r h).1) (by decide)
  · exact absurd (hi.symm.trans (mem_typeRecs d r h).1) (by decide)
  · exact absurd (hi.symm.trans (mem_dateRecs d r h).1) (by decide)
  · exact h
  · exact absurd (hi.symm.trans (mem_whitespaceRecs d r h).1) (by decide)

lemma mem_missingColsIdx_iff (d : Dataset) (j : Nat) :
    j ∈ missingColsIdx d ↔
      j < d.ncols ∧ 0 < nullCount (d.colCells j) := by
  simp [missingColsIdx, List.mem_filter]

lemma highMissingCols_ne_nil_iff (d : Dataset) :
    ¬ (highMissingCols d).isEmpty = true ↔
      ∃ j, j < d.ncols ∧ 7/10 < colNullFracQ d j := by
  rw [highMissingCols]
  simp only [List.isEmpty_iff, List.map_eq_nil_iff, List.filter_eq_nil_iff,
    List.mem_range, decide_eq_true_eq]
  push_neg
  constructor
  · rintro ⟨j, hj, hp⟩; exact ⟨j, hj, hp⟩
  · rintro ⟨j, hj, hp⟩; exact ⟨j, hj, hp⟩

/-- C9: the Missing Values recommendation of a column with nulls exists,
is unique for that column, has severity High exactly when the missing
fraction exceeds 0.3, Medium exactly when it exceeds 0.1 but not 0.3, Low
otherwise, and is auto-fix eligible exactly when its severity is not
High; the High Missing Columns recommendation is generated exactly when
some column has more than 70 percent missing, and is never auto-fix
eligible. -/
theorem c9_severity_thresholds (d : Dataset) (hwf : d.wfB = true) :
    (∀ j, j < d.ncols → 0 < nullCount (d.colCells j) →
      ∃ r, r ∈ generate_ai_recommendations d ∧
        r.issue = "Missing Values" ∧ r.column = colNameAt d j ∧
        (r.severity = "High" ↔ 3/10 < colNullFracQ d j) ∧
        (r.severity = "Medium" ↔
          (1/10 < colNullFracQ d j ∧ ¬ 3/10 < colNullFracQ d j)) ∧
        (r.severity = "Low" ↔
          (¬ 1/10 < colNullFracQ d j ∧ ¬ 3/10 < colNullFracQ d j)) ∧
        (r.auto_fix = true ↔ r.severity ≠ "High") ∧
        (∀ r', r' ∈ generate_ai_recommendations d →
          r'.issue = "Missing Values" → r'.column = colNameAt d j →
          r' = r)) ∧
    ((∃ r, r ∈ generate_ai_recommendations d ∧
        r.issue = "High Missing Columns") ↔
      (∃ j, j < d.ncols ∧ 7/10 < colNullFracQ d j)) ∧
    (∀ r, r ∈ generate_ai_recommendations d →
      r.issue = "High Missing Columns" → r.auto_fix = false) := by
  have hnd := wfB_names_nodup d hwf
  refine ⟨?_, ?_, ?_⟩
  · intro j hj hn
    refine ⟨mkMissingRec d j, ?_, rfl, rfl, ?_, ?_, ?_, ?_, ?_⟩
    · simp only [generate_ai_recommendations, List.mem_append]
      refine Or.inl (Or.inl (Or.inl (Or.inl (Or.inl ?_))))
      exact List.mem_map.mpr
        ⟨j, (mem_missingColsIdx_iff d j).mpr ⟨hj, hn⟩, rfl⟩
    · exact sevOfPct_high_iff (colNullFracQ d j)
    · exact sevOfPct_medium_iff (colNullFracQ d j)
    · exact sevOfPct_low_iff (colNullFracQ d j)
    · show (sevOfPct (colNullFracQ d j) != "High") = true ↔ _
      rw [bne_iff_ne]
      exact Iff.rfl
    · intro r' hr' hi' hc'
      obtain ⟨j', hj', rfl⟩ :=
        (mem_missingRecs_iff d r').mp (mem_gen_of_missing d r' hr' hi')
      have hj'lt := ((mem_missingColsIdx_iff d j').mp hj').1
      have : j' = j := colNameAt_inj d hnd hj'lt hj hc'
      rw [this]
  · constructor
    · rintro ⟨r, hr, hi⟩
      have h := mem_gen_of_high d r hr hi
      simp only [highMissingRecs] at h
      split at h
      · simp at h
      · rename_i hne
        exact (highMissingCols_ne_nil_iff d).mp hne
    · intro hex
      have hne := (highMissingCols_ne_nil_iff d).mpr hex
      refine ⟨{ issue := "High Missing Columns"
                column := String.intercalate ", " (highMissingCols d)
                severity := "High"
                description := "Remove columns with >70% missing values: "
                  ++ String.intercalate ", " (highMissingCols d)
                action := "remove_high_missing"
                params := { columns := some (highMissingCols d) }
                auto_fix := false }, ?_, rfl⟩
      simp only [generate_ai_recommendations, List.mem_append]
      refine Or.inl (Or.inr ?_)
      simp only [highMissingRecs, if_neg hne]
      exact List.mem_singleton.mpr rfl
  · intro r hr hi
    exact (mem_highMissingRecs d r (mem_gen_of_high d r hr hi)).2.2

/-- A table whose only column is 100 percent missing. -/
def dsHM : Dataset :=
  { colmeta := [⟨"a", Dtype.numeric⟩]
    rows := [[Cell.null], [Cell.null], [Cell.null]] }

/-- The High Missing Columns recommendation generated for `dsHM`. -/
def highRecDsHM : Recommendation :=
  { issue := "High Missing Columns", column := "a", severity := "High",
    description := "Remove columns with >70% missing values: a",
    action := "remove_high_missing", params := { columns := some ["a"] },
    auto_fix := false }

/-- Witness for C9: the High Missing Columns recommendation of `dsHM` is
not auto-fix eligible. -/
theorem c9_witness : highRecDsHM.auto_fix = false :=
  (c9_severity_thresholds dsHM (by decide)).2.2 highRecDsHM
    (by with_unfolding_all decide) rfl

end Optenalize
